import Mathlib

/-!
Verification of the Superstore dashboard's analytics aggregation core
(`src/app.py`) against its specification.

The pandas dataframe operations are embedded shallowly: a record set is a
`List TransactionRecord`; column sums (`df['Sales'].sum()`) are folds;
`nunique` is deduplicated length; `groupby` (which sorts its group keys
ascending by default) is deduplication of the key column followed by an
insertion sort and per-key filtering; monetary values are rationals.
-/

/-- A calendar date, as parsed from the `Order Date` column. -/
structure Date where
  year : Nat
  month : Nat
  day : Nat
deriving DecidableEq, Repr

/-- One row of `data/Superstore.csv` as loaded by `load_data` (app.py:137-140):
the columns the dashboard reads. -/
structure TransactionRecord where
  orderId : String
  orderDate : Date
  category : String
  subCategory : String
  region : String
  segment : String
  sales : Rat
  profit : Rat
  discount : Rat
  quantity : Nat
deriving DecidableEq, Repr

/-- The calendar-month bucket of a date: `dt.to_period('M')` collapsed to a
single index (months since year 0). -/
def monthIndex (d : Date) : Nat :=
  d.year * 12 + (d.month - 1)

/-- Column sum `df[col].sum()` for a rational-valued column: a single
accumulating pass. -/
def colSum (rows : List TransactionRecord) (f : TransactionRecord → Rat) : Rat :=
  rows.foldl (fun acc r => acc + f r) 0

/-- Column sum `df['Quantity'].sum()` for the integer column. -/
def colSumNat (rows : List TransactionRecord) (f : TransactionRecord → Nat) : Nat :=
  rows.foldl (fun acc r => acc + f r) 0

/-- Distinct count `df[col].nunique()`: the number of distinct values in a
column. -/
def nunique (rows : List TransactionRecord) (f : TransactionRecord → String) : Nat :=
  (rows.map f).dedup.length

/-- The KPI scalar bundle of the Overview page. -/
structure KPIBundle where
  totalSales : Rat
  totalProfit : Rat
  totalOrders : Nat
  totalQuantity : Nat
deriving DecidableEq, Repr

/-- The Overview KPI block (app.py:151-154):
`total_sales = df['Sales'].sum()`, `total_profit = df['Profit'].sum()`,
`total_orders = df['Order ID'].nunique()`, `total_quantity = df['Quantity'].sum()`. -/
def kpis (records : List TransactionRecord) : KPIBundle :=
  { totalSales := colSum records (fun r => r.sales)
    totalProfit := colSum records (fun r => r.profit)
    totalOrders := nunique records (fun r => r.orderId)
    totalQuantity := colSumNat records (fun r => r.quantity) }

/-- One row of a group-by summary table: the group key with the per-group
`Sales` and `Profit` sums. -/
structure GroupRow (K : Type) where
  key : K
  sales : Rat
  profit : Rat
deriving DecidableEq, Repr

/-- Lexicographic (code-point) comparison of character lists: the order in
which pandas sorts string group keys. -/
def listCharLe : List Char → List Char → Bool
  | [], _ => true
  | _ :: _, [] => false
  | c :: cs, d :: ds =>
    if c.toNat < d.toNat then true
    else if d.toNat < c.toNat then false
    else listCharLe cs ds

/-- String comparison as pandas sorts single-column string keys. -/
def strLe (a b : String) : Prop :=
  listCharLe a.data b.data = true

instance : DecidableRel strLe := fun a b =>
  inferInstanceAs (Decidable (listCharLe a.data b.data = true))

/-- Lexicographic order on the (Category, Sub-Category) pair: pandas sorts a
two-column group key by the first column, then the second. -/
def pairLe (a b : String × String) : Prop :=
  (if a.1.data = b.1.data then listCharLe a.2.data b.2.data
   else listCharLe a.1.data b.1.data) = true

instance : DecidableRel pairLe := fun a b =>
  inferInstanceAs (Decidable (_ = true))

/-- Generic embedding of `df.groupby(col)[['Sales', 'Profit']].sum()
.reset_index()` with pandas' default `sort=True`: rows are the distinct key
values sorted ascending by the order relation `r`, each with the per-group
column sums. -/
def groupSummary {K : Type} [DecidableEq K] (r : K → K → Prop) [DecidableRel r]
    (records : List TransactionRecord) (key : TransactionRecord → K) : List (GroupRow K) :=
  (List.insertionSort r ((records.map key).dedup)).map (fun k =>
    { key := k
      sales := colSum (records.filter (fun x => decide (key x = k))) (fun x => x.sales)
      profit := colSum (records.filter (fun x => decide (key x = k))) (fun x => x.profit) })

/-- Embeds app.py:265 `cat_summary = df.groupby('Category')[['Sales','Profit']].sum().reset_index()`. -/
def catSummary (records : List TransactionRecord) : List (GroupRow String) :=
  groupSummary strLe records (fun r => r.category)

/-- Embeds app.py:312 `region_summary = df.groupby('Region')[['Sales','Profit']].sum().reset_index()`. -/
def regionSummary (records : List TransactionRecord) : List (GroupRow String) :=
  groupSummary strLe records (fun r => r.region)

/-- Embeds app.py:357 `segment_summary = df.groupby('Segment')[['Sales','Profit']].sum().reset_index()`. -/
def segmentSummary (records : List TransactionRecord) : List (GroupRow String) :=
  groupSummary strLe records (fun r => r.segment)

/-- Embeds app.py:300 `subcat_summary = df.groupby(['Category','Sub-Category'])[['Sales','Profit']].sum().reset_index()`. -/
def subcatSummary (records : List TransactionRecord) : List (GroupRow (String × String)) :=
  groupSummary pairLe records (fun r => (r.category, r.subCategory))

/-- The order used by `sort_values(by='Sales', ascending=False)`. -/
def salesDesc {K : Type} (a b : GroupRow K) : Prop :=
  b.sales ≤ a.sales

instance {K : Type} : DecidableRel (salesDesc (K := K)) := fun a b =>
  inferInstanceAs (Decidable (b.sales ≤ a.sales))

/-- Embeds app.py:301 `subcat_summary.sort_values(by='Sales', ascending=False)`. -/
def sortBySalesDesc {K : Type} (rows : List (GroupRow K)) : List (GroupRow K) :=
  List.insertionSort salesDesc rows

/-- One row of `data/clustered_data.csv` as read on the Clustering page
(app.py:456): an integer cluster id plus the numeric metrics. -/
structure ClusterPoint where
  cluster : Int
  sales : Rat
  profit : Rat
  discount : Rat
  quantity : Rat
deriving DecidableEq, Repr

/-- The fixed id-to-label table (app.py:478-483). -/
def clusterLabels : List (Int × String) :=
  [(0, "🧾 Regular Customers"),
   (1, "🏆 VIPs — High Value Clients"),
   (2, "🎯 Medium Segment — Stable"),
   (3, "⚠️ Risky — Discount Loss Group")]

/-- Label lookup `summary_df["Cluster"].map(cluster_labels)` (app.py:485):
a missing key yields a null label, not an error. -/
def mapLabel (c : Int) : Option String :=
  (clusterLabels.find? (fun p => decide (p.1 = c))).map (fun p => p.2)

/-- Rounding `.round(2)`: to the nearest multiple of 1/100. -/
def round2 (x : Rat) : Rat :=
  ((⌊x * 100 + 1/2⌋ : Int) : Rat) / 100

/-- Group mean `.agg('mean')` over one group's column. -/
def listMean (l : List Rat) : Rat :=
  l.sum / (l.length : Rat)

/-- One row of the cluster summary table (app.py:470-485). -/
structure ClusterSummaryRow where
  cluster : Int
  meanSales : Rat
  meanProfit : Rat
  meanDiscount : Rat
  meanQuantity : Rat
  interpretation : Option String
deriving DecidableEq, Repr

/-- Embeds app.py:470-485: `cluster_df.groupby('Cluster').agg(mean of Sales,
Profit, Discount, Quantity).round(2).reset_index()` followed by the label
map. `groupby` sorts cluster ids ascending. -/
def summarize (rows : List ClusterPoint) : List ClusterSummaryRow :=
  (List.insertionSort (· ≤ ·) ((rows.map (fun p => p.cluster)).dedup)).map (fun c =>
    { cluster := c
      meanSales := round2 (listMean ((rows.filter (fun p => decide (p.cluster = c))).map
        (fun p => p.sales)))
      meanProfit := round2 (listMean ((rows.filter (fun p => decide (p.cluster = c))).map
        (fun p => p.profit)))
      meanDiscount := round2 (listMean ((rows.filter (fun p => decide (p.cluster = c))).map
        (fun p => p.discount)))
      meanQuantity := round2 (listMean ((rows.filter (fun p => decide (p.cluster = c))).map
        (fun p => p.quantity)))
      interpretation := mapLabel c })

/-- Embeds app.py:197 and 225 (Trends page): `df['Year'] = df['Order Date']
.dt.year` and `filtered_df = df[df['Year'] == selected_year]`: boolean-mask
filtering on exact year equality, preserving row order. -/
def filterByYear (records : List TransactionRecord) (y : Nat) : List TransactionRecord :=
  records.filter (fun r => decide (r.orderDate.year = y))

/-- One row of `data/forecast_sales.csv` as read on the Forecasting page
(app.py:403): a date index and the Prophet point forecast with its interval. -/
structure ForecastPoint where
  ds : Nat
  yhat : Rat
  yhatLower : Rat
  yhatUpper : Rat
deriving DecidableEq, Repr

/-- Embeds app.py:403: `forecast_data = pd.read_csv("data/forecast_sales.csv")`
— a bare read: the parsed rows are used as-is; no per-row interval check, no
cross-row date check, and no diagnostic of any kind is produced. The second
component is the (always empty) list of emitted diagnostics. -/
def loadForecast (rows : List ForecastPoint) : List ForecastPoint × List String :=
  (rows, [])

/-- Display helper `DataFrame.tail(n)` (app.py:438): the last `n` rows, or
all rows when fewer than `n` exist. -/
def tail {α : Type} (l : List α) (n : Nat) : List α :=
  l.drop (l.length - n)

/-- One row of the Trends-page monthly aggregation. -/
structure TrendRow where
  month : Nat
  sales : Rat
  profit : Rat
  discount : Rat
deriving DecidableEq, Repr

/-- Embeds app.py:195-196 (Trends page): `df['Order Month'] = df['Order Date']
.dt.to_period('M').dt.to_timestamp()` then `monthly = df.groupby('Order
Month')[['Sales','Profit','Discount']].sum().reset_index()`: one row per
month that actually occurs among the records, keys sorted ascending. -/
def monthlyTrend (records : List TransactionRecord) : List TrendRow :=
  (List.insertionSort (· ≤ ·) ((records.map (fun r => monthIndex r.orderDate)).dedup)).map
    (fun m =>
      { month := m
        sales := colSum (records.filter (fun r => decide (monthIndex r.orderDate = m)))
          (fun r => r.sales)
        profit := colSum (records.filter (fun r => decide (monthIndex r.orderDate = m)))
          (fun r => r.profit)
        discount := colSum (records.filter (fun r => decide (monthIndex r.orderDate = m)))
          (fun r => r.discount) })

/-- Smallest element of a non-empty list of month indices (0 for empty). -/
def natMinList : List Nat → Nat
  | [] => 0
  | [x] => x
  | x :: y :: t => Nat.min x (natMinList (y :: t))

/-- Largest element of a non-empty list of month indices (0 for empty). -/
def natMaxList : List Nat → Nat
  | [] => 0
  | [x] => x
  | x :: y :: t => Nat.max x (natMaxList (y :: t))

/-- Embeds app.py:165 (Overview page): `monthly_sales = df.groupby(pd.Grouper(
key='Order Date', freq='M'))['Sales'].sum().reset_index()`. A frequency
Grouper bins like a resample: every calendar month from the earliest to the
latest order date becomes a bucket, a month with no records getting sum 0. -/
def monthlySalesOverview (records : List TransactionRecord) : List (Nat × Rat) :=
  match records with
  | [] => []
  | _ :: _ =>
    (List.range (natMaxList (records.map (fun r => monthIndex r.orderDate)) + 1
        - natMinList (records.map (fun r => monthIndex r.orderDate)))).map (fun i =>
      (natMinList (records.map (fun r => monthIndex r.orderDate)) + i,
        colSum (records.filter (fun r => decide (monthIndex r.orderDate
          = natMinList (records.map (fun r => monthIndex r.orderDate)) + i)))
          (fun r => r.sales)))

/-- The loaded dataframe together with the derived-column slots the Trends
page assigns in place (both absent right after load). -/
structure Frame where
  rows : List TransactionRecord
  orderMonthCol : Option (List Nat)
  yearCol : Option (List Nat)
deriving DecidableEq, Repr

/-- The columns of `data/Superstore.csv` that the dashboard reads. -/
def baseColumns : List String :=
  ["Order ID", "Order Date", "Category", "Sub-Category", "Region", "Segment",
   "Sales", "Profit", "Discount", "Quantity"]

/-- The column list of a frame: the base columns plus any derived columns
that have been assigned. -/
def frameColumns (f : Frame) : List String :=
  baseColumns ++ (if f.orderMonthCol.isSome then ["Order Month"] else [])
    ++ (if f.yearCol.isSome then ["Year"] else [])

/-- The loader `load_data` (app.py:137-142): the freshly parsed snapshot
carries only the base columns. -/
def loadFrame (records : List TransactionRecord) : Frame :=
  { rows := records, orderMonthCol := none, yearCol := none }

/-- Embeds app.py:195 and 197 (Trends page): `df['Order Month'] = df['Order
Date'].dt.to_period('M').dt.to_timestamp()` and `df['Year'] = df['Order
Date'].dt.year` assign two new columns to the loaded frame in place. -/
def assignTrendColumns (f : Frame) : Frame :=
  { f with
    orderMonthCol := some (f.rows.map (fun r => monthIndex r.orderDate))
    yearCol := some (f.rows.map (fun r => r.orderDate.year)) }

/-- Concrete record used by witnesses: January 2024, category Technology. -/
def recA : TransactionRecord :=
  { orderId := "CA-1"
    orderDate := { year := 2024, month := 1, day := 5 }
    category := "Technology"
    subCategory := "Phones"
    region := "West"
    segment := "Consumer"
    sales := 100
    profit := 20
    discount := 0
    quantity := 2 }

/-- Concrete record used by witnesses: same order id as `recA`, category
Furniture. -/
def recB : TransactionRecord :=
  { orderId := "CA-1"
    orderDate := { year := 2024, month := 1, day := 20 }
    category := "Furniture"
    subCategory := "Chairs"
    region := "East"
    segment := "Corporate"
    sales := 50
    profit := -5
    discount := 1/5
    quantity := 1 }

/-- Concrete record used by witnesses: March 2024, a distinct order id. -/
def recC : TransactionRecord :=
  { orderId := "CA-2"
    orderDate := { year := 2024, month := 3, day := 1 }
    category := "Technology"
    subCategory := "Phones"
    region := "West"
    segment := "Consumer"
    sales := 30
    profit := 10
    discount := 0
    quantity := 4 }

/-- Concrete cluster rows used by witnesses: ids 0 and 4, where 4 has no
entry in the label mapping. -/
def demoClusters : List ClusterPoint :=
  [{ cluster := 0, sales := 10, profit := 5, discount := 0, quantity := 1 },
   { cluster := 4, sales := 8, profit := 2, discount := 0, quantity := 3 }]

/-- The summary row produced for the unmapped id 4. -/
def clusterRow4 : ClusterSummaryRow :=
  { cluster := 4
    meanSales := 8
    meanProfit := 2
    meanDiscount := 0
    meanQuantity := 3
    interpretation := none }

/-- A forecast row violating the lower ≤ point invariant. -/
def badForecastRow : ForecastPoint :=
  { ds := 0, yhat := 5, yhatLower := 10, yhatUpper := 20 }

/-! Helper lemmas about the embedded operations, and the order-theoretic
instances the sorting proofs need. -/

theorem colSum_eq_sum_map (rows : List TransactionRecord) (f : TransactionRecord → Rat) :
    colSum rows f = (rows.map f).sum := by
  have h : ∀ (l : List TransactionRecord) (init : Rat),
      l.foldl (fun acc r => acc + f r) init = init + (l.map f).sum := by
    intro l
    induction l with
    | nil => intro init; simp
    | cons r t ih =>
      intro init
      simp [List.foldl_cons, ih, add_assoc]
  simpa using h rows 0

theorem colSumNat_eq_sum_map (rows : List TransactionRecord) (f : TransactionRecord → Nat) :
    colSumNat rows f = (rows.map f).sum := by
  have h : ∀ (l : List TransactionRecord) (init : Nat),
      l.foldl (fun acc r => acc + f r) init = init + (l.map f).sum := by
    intro l
    induction l with
    | nil => intro init; simp
    | cons r t ih =>
      intro init
      simp [List.foldl_cons, ih, Nat.add_assoc]
  simpa using h rows 0

theorem listCharLe_total (x : List Char) :
    ∀ y, listCharLe x y = true ∨ listCharLe y x = true := by
  induction x with
  | nil => intro y; left; rfl
  | cons c cs ih =>
    intro y
    cases y with
    | nil => right; rfl
    | cons d ds =>
      rcases Nat.lt_trichotomy c.toNat d.toNat with h | h | h
      · left; simp [listCharLe, h]
      · rcases ih ds with h2 | h2
        · left; simp [listCharLe, h, h2]
        · right; simp [listCharLe, h.symm, h2]
      · right; simp [listCharLe, h]

theorem listCharLe_trans (x : List Char) :
    ∀ y z, listCharLe x y = true → listCharLe y z = true → listCharLe x z = true := by
  induction x with
  | nil => intro y z _ _; rfl
  | cons c cs ih =>
    intro y z hxy hyz
    cases y with
    | nil => simp [listCharLe] at hxy
    | cons d ds =>
      cases z with
      | nil => simp [listCharLe] at hyz
      | cons e es =>
        rcases Nat.lt_trichotomy c.toNat d.toNat with hcd | hcd | hcd
        · rcases Nat.lt_trichotomy d.toNat e.toNat with hde | hde | hde
          · have hce : c.toNat < e.toNat := hcd.trans hde
            simp [listCharLe, hce]
          · have hce : c.toNat < e.toNat := hde ▸ hcd
            simp [listCharLe, hce]
          · have h1 : ¬ d.toNat < e.toNat := Nat.lt_asymm hde
            simp [listCharLe, h1, hde] at hyz
        · rcases Nat.lt_trichotomy d.toNat e.toNat with hde | hde | hde
          · have hce : c.toNat < e.toNat := hcd ▸ hde
            simp [listCharLe, hce]
          · have hce : c.toNat = e.toNat := hcd.trans hde
            simp only [listCharLe, hcd, hde, hce, Nat.lt_irrefl, if_false] at hxy hyz ⊢
            exact ih ds es hxy hyz
          · have h1 : ¬ d.toNat < e.toNat := Nat.lt_asymm hde
            simp [listCharLe, h1, hde] at hyz
        · have h1 : ¬ c.toNat < d.toNat := Nat.lt_asymm hcd
          simp [listCharLe, h1, hcd] at hxy

theorem listCharLe_antisymm (x : List Char) :
    ∀ y, listCharLe x y = true → listCharLe y x = true → x = y := by
  induction x with
  | nil =>
    intro y hxy hyx
    cases y with
    | nil => rfl
    | cons d ds => simp [listCharLe] at hyx
  | cons c cs ih =>
    intro y hxy hyx
    cases y with
    | nil => simp [listCharLe] at hxy
    | cons d ds =>
      rcases Nat.lt_trichotomy c.toNat d.toNat with h | h | h
      · have h1 : ¬ d.toNat < c.toNat := Nat.lt_asymm h
        simp [listCharLe, h1, h] at hyx
      · have hcd : c = d := Char.eq_of_val_eq (UInt32.ext h)
        have hrec : cs = ds := by
          apply ih ds
          · simpa [listCharLe, h, Nat.lt_irrefl] using hxy
          · simpa [listCharLe, h.symm, Nat.lt_irrefl] using hyx
        rw [hcd, hrec]
      · have h1 : ¬ c.toNat < d.toNat := Nat.lt_asymm h
        simp [listCharLe, h1, h] at hxy

instance : IsTotal String strLe where
  total a b := listCharLe_total a.data b.data

instance : IsTrans String strLe where
  trans a b c := listCharLe_trans a.data b.data c.data

instance : IsTotal (String × String) pairLe where
  total a b := by
    unfold pairLe
    by_cases h : a.1.data = b.1.data
    · rcases listCharLe_total a.2.data b.2.data with h2 | h2
      · exact Or.inl (by simp [h, h2])
      · exact Or.inr (by simp [h.symm, h2])
    · have hne : ¬ b.1.data = a.1.data := fun hba => h hba.symm
      rcases listCharLe_total a.1.data b.1.data with h2 | h2
      · exact Or.inl (by simp [h, h2])
      · exact Or.inr (by simp [hne, h2])

instance : IsTrans (String × String) pairLe where
  trans a b c hab hbc := by
    unfold pairLe at hab hbc ⊢
    by_cases hab1 : a.1.data = b.1.data
    · by_cases hbc1 : b.1.data = c.1.data
      · have hac : a.1.data = c.1.data := hab1.trans hbc1
        rw [if_pos hab1] at hab
        rw [if_pos hbc1] at hbc
        rw [if_pos hac]
        exact listCharLe_trans _ _ _ hab hbc
      · have hac : ¬ a.1.data = c.1.data := fun h => hbc1 (hab1.symm.trans h)
        rw [if_neg hbc1] at hbc
        rw [if_neg hac, hab1]
        exact hbc
    · by_cases hbc1 : b.1.data = c.1.data
      · have hac : ¬ a.1.data = c.1.data := fun h => hab1 (h.trans hbc1.symm)
        rw [if_neg hab1, hbc1] at hab
        rw [if_neg hac]
        exact hab
      · by_cases hac : a.1.data = c.1.data
        · exfalso
          rw [if_neg hab1] at hab
          rw [if_neg hbc1, ← hac] at hbc
          exact hab1 (listCharLe_antisymm _ _ hab hbc)
        · rw [if_neg hab1] at hab
          rw [if_neg hbc1] at hbc
          rw [if_neg hac]
          exact listCharLe_trans _ _ _ hab hbc

instance {K : Type} : IsTotal (GroupRow K) salesDesc where
  total a b := (le_total b.sales a.sales).imp id id

instance {K : Type} : IsTrans (GroupRow K) salesDesc where
  trans _ _ _ hab hbc := hbc.trans hab

theorem groupSummary_keys {K : Type} [DecidableEq K] (r : K → K → Prop) [DecidableRel r]
    (records : List TransactionRecord) (key : TransactionRecord → K) :
    (groupSummary r records key).map (fun g => g.key)
      = List.insertionSort r ((records.map key).dedup) := by
  simp [groupSummary, List.map_map, Function.comp_def]

theorem sum_map_add {K : Type} (g h : K → Rat) (ks : List K) :
    (ks.map (fun k => g k + h k)).sum = (ks.map g).sum + (ks.map h).sum := by
  induction ks with
  | nil => simp
  | cons k t ih =>
    simp only [List.map_cons, List.sum_cons, ih]
    ring

theorem sum_map_ite_single {K : Type} [DecidableEq K] (c : K) (v : Rat) :
    ∀ ks : List K, ks.Nodup → c ∈ ks →
      (ks.map (fun k => if c = k then v else 0)).sum = v := by
  intro ks
  induction ks with
  | nil => intro _ h; cases h
  | cons k t ih =>
    intro hnd hmem
    rcases List.mem_cons.mp hmem with h | h
    · subst h
      have hz : (t.map (fun k => if c = k then v else 0)).sum = 0 := by
        apply List.sum_eq_zero
        intro x hx
        rcases List.mem_map.mp hx with ⟨k2, hk2, hval⟩
        have : c ≠ k2 := fun hck => (List.nodup_cons.mp hnd).1 (hck ▸ hk2)
        simp [this] at hval
        exact hval.symm
      simp [hz]
    · have hck : c ≠ k := fun hckeq => (List.nodup_cons.mp hnd).1 (hckeq ▸ h)
      simp [hck, ih (List.nodup_cons.mp hnd).2 h]

theorem sum_over_groups {K : Type} [DecidableEq K] (f : TransactionRecord → Rat)
    (key : TransactionRecord → K) :
    ∀ (records : List TransactionRecord) (ks : List K), ks.Nodup →
      (∀ x ∈ records, key x ∈ ks) →
      (ks.map (fun k =>
        ((records.filter (fun x => decide (key x = k))).map f).sum)).sum
        = (records.map f).sum := by
  intro records
  induction records with
  | nil =>
    intro ks _ _
    simp
  | cons a t ih =>
    intro ks hnd hall
    have hrw : (ks.map (fun k =>
        (((a :: t).filter (fun x => decide (key x = k))).map f).sum))
        = ks.map (fun k => (if key a = k then f a else 0) +
            ((t.filter (fun x => decide (key x = k))).map f).sum) := by
      apply List.map_congr_left
      intro k _
      by_cases h : key a = k
      · simp [List.filter_cons, h]
      · simp [List.filter_cons, h]
    rw [hrw]
    rw [sum_map_add (fun k => if key a = k then f a else 0)
      (fun k => ((t.filter (fun x => decide (key x = k))).map f).sum) ks]
    rw [sum_map_ite_single (key a) (f a) ks hnd (hall a (List.mem_cons_self a t))]
    rw [ih ks hnd (fun x hx => hall x (List.mem_cons_of_mem a hx))]
    simp

theorem groupSummary_sales_total {K : Type} [DecidableEq K] (r : K → K → Prop) [DecidableRel r]
    (records : List TransactionRecord) (key : TransactionRecord → K) :
    ((groupSummary r records key).map (fun g => g.sales)).sum
      = (kpis records).totalSales := by
  have hperm : ((List.insertionSort r ((records.map key).dedup)).map (fun k =>
      colSum (records.filter (fun x => decide (key x = k))) (fun x => x.sales))).sum
      = (((records.map key).dedup).map (fun k =>
      colSum (records.filter (fun x => decide (key x = k))) (fun x => x.sales))).sum :=
    ((List.perm_insertionSort r ((records.map key).dedup)).map _).sum_eq
  have hcol : ∀ ks : List K, (ks.map (fun k =>
      colSum (records.filter (fun x => decide (key x = k))) (fun x => x.sales))).sum
      = (ks.map (fun k =>
      ((records.filter (fun x => decide (key x = k))).map (fun x => x.sales)).sum)).sum := by
    intro ks
    congr 1
    apply List.map_congr_left
    intro k _
    exact colSum_eq_sum_map _ _
  have hmain := sum_over_groups (fun x => x.sales) key records ((records.map key).dedup)
    (List.nodup_dedup _)
    (fun x hx => List.mem_dedup.mpr (List.mem_map.mpr ⟨x, hx, rfl⟩))
  calc ((groupSummary r records key).map (fun g => g.sales)).sum
      = ((List.insertionSort r ((records.map key).dedup)).map (fun k =>
          colSum (records.filter (fun x => decide (key x = k))) (fun x => x.sales))).sum := by
        simp [groupSummary, List.map_map, Function.comp_def]
    _ = (((records.map key).dedup).map (fun k =>
          colSum (records.filter (fun x => decide (key x = k))) (fun x => x.sales))).sum := hperm
    _ = (((records.map key).dedup).map (fun k =>
          ((records.filter (fun x => decide (key x = k))).map (fun x => x.sales)).sum)).sum :=
        hcol _
    _ = (records.map (fun x => x.sales)).sum := hmain
    _ = (kpis records).totalSales := (colSum_eq_sum_map records _).symm

theorem summarize_cluster_col (rows : List ClusterPoint) :
    (summarize rows).map (fun s => s.cluster)
      = List.insertionSort (· ≤ ·) ((rows.map (fun p => p.cluster)).dedup) := by
  simp [summarize, List.map_map, Function.comp_def]

theorem natMinList_le (x : Nat) : ∀ l : List Nat, x ∈ l → natMinList l ≤ x := by
  intro l
  induction l with
  | nil => intro h; cases h
  | cons a t ih =>
    intro hx
    cases t with
    | nil =>
      have : x = a := by simpa using hx
      subst this
      exact le_rfl
    | cons b t2 =>
      rcases List.mem_cons.mp hx with h | h
      · subst h
        exact Nat.min_le_left _ _
      · exact le_trans (Nat.min_le_right _ _) (ih h)

theorem le_natMaxList (x : Nat) : ∀ l : List Nat, x ∈ l → x ≤ natMaxList l := by
  intro l
  induction l with
  | nil => intro h; cases h
  | cons a t ih =>
    intro hx
    cases t with
    | nil =>
      have : x = a := by simpa using hx
      subst this
      exact le_rfl
    | cons b t2 =>
      rcases List.mem_cons.mp hx with h | h
      · subst h
        exact Nat.le_max_left _ _
      · exact le_trans (ih h) (Nat.le_max_right _ _)

theorem natMinList_le_natMaxList (l : List Nat) (h : l ≠ []) :
    natMinList l ≤ natMaxList l := by
  cases l with
  | nil => exact absurd rfl h
  | cons a t =>
    exact le_trans (natMinList_le a _ (List.mem_cons_self a t))
      (le_natMaxList a _ (List.mem_cons_self a t))

theorem mem_range_map_add (a n k : Nat) :
    k ∈ (List.range n).map (fun i => a + i) ↔ a ≤ k ∧ k < a + n := by
  simp only [List.mem_map, List.mem_range]
  constructor
  · rintro ⟨i, hi, rfl⟩
    omega
  · intro h
    exact ⟨k - a, by omega, by omega⟩

theorem sorted_range_map_add (a n : Nat) :
    List.Sorted (· < ·) ((List.range n).map (fun i => a + i)) := by
  rw [List.Sorted, List.pairwise_map]
  exact (List.pairwise_lt_range n).imp (fun h => by omega)

theorem monthlyTrend_months (records : List TransactionRecord) :
    (monthlyTrend records).map (fun t => t.month)
      = List.insertionSort (· ≤ ·) ((records.map (fun r => monthIndex r.orderDate)).dedup) := by
  simp [monthlyTrend, List.map_map, Function.comp_def]

/-! The claims. -/

/-- C1: for every record set, `total_sales`, `total_profit` and
`total_quantity` are the arithmetic sums of the corresponding columns, and
`total_orders` is the number of distinct order identifiers, so two rows
sharing one order identifier contribute 1 to `total_orders`, not 2. -/
theorem C1_kpi_bundle (records : List TransactionRecord) :
    (kpis records).totalSales = (records.map (fun r => r.sales)).sum ∧
    (kpis records).totalProfit = (records.map (fun r => r.profit)).sum ∧
    (kpis records).totalQuantity = (records.map (fun r => r.quantity)).sum ∧
    (kpis records).totalOrders = (records.map (fun r => r.orderId)).toFinset.card ∧
    (∀ r1 r2 : TransactionRecord, r1.orderId = r2.orderId →
      (kpis [r1, r2]).totalOrders = 1) := by
  refine ⟨colSum_eq_sum_map records _, colSum_eq_sum_map records _,
    colSumNat_eq_sum_map records _, ?_, ?_⟩
  · simp [kpis, nunique, List.card_toFinset]
  · intro r1 r2 h
    simp [kpis, nunique, h, List.dedup_cons_of_mem]

/-- Witness for C1 at a concrete input: two rows sharing one order id. -/
theorem C1_kpi_bundle_witness :
    (kpis [recA, recB]).totalOrders = 1 :=
  (C1_kpi_bundle [recA, recB]).2.2.2.2 recA recB rfl

/-- C2: for every non-empty record set, the sum of the sales column of the
group summary for each complete partitioning dimension (category, region,
segment) equals the KPI total sales of the same record set. -/
theorem C2_conservation (records : List TransactionRecord) (hne : records ≠ []) :
    ((catSummary records).map (fun g => g.sales)).sum = (kpis records).totalSales ∧
    ((regionSummary records).map (fun g => g.sales)).sum = (kpis records).totalSales ∧
    ((segmentSummary records).map (fun g => g.sales)).sum = (kpis records).totalSales :=
  ⟨groupSummary_sales_total _ records _,
   groupSummary_sales_total _ records _,
   groupSummary_sales_total _ records _⟩

/-- Witness for C2 at a concrete non-empty record set. -/
theorem C2_conservation_witness :
    [recA, recB, recC] ≠ ([] : List TransactionRecord) ∧
    ((catSummary [recA, recB, recC]).map (fun g => g.sales)).sum
      = (kpis [recA, recB, recC]).totalSales :=
  ⟨by simp, (C2_conservation [recA, recB, recC] (by simp)).1⟩

/-- C3 counterexample: with one record in January 2024 (month index 24288)
and one in March 2024 (24290), the Overview monthly series contains a bucket
for February 2024 (24289) although no record contributes to it — the
`pd.Grouper(freq='M')` aggregation zero-fills interior months instead of
omitting them. -/
theorem C3_counterexample :
    24289 ∈ (monthlySalesOverview [recA, recC]).map (fun p => p.1) ∧
    [recA, recC].filter (fun r => decide (monthIndex r.orderDate = 24289)) = [] := by
  constructor
  · decide
  · decide

/-- C3 amended: the Trends-page monthly trend is produced in chronological
order and a month with zero contributing records is omitted; the
Overview-page monthly series is also chronological, but it zero-fills: for a
non-empty record set its buckets are exactly every calendar month between the
earliest and the latest order month, whether or not any record falls in it. -/
theorem C3_monthly_order (records : List TransactionRecord) (hne : records ≠ []) :
    List.Sorted (· < ·) ((monthlyTrend records).map (fun t => t.month)) ∧
    (∀ t ∈ monthlyTrend records, ∃ r ∈ records, monthIndex r.orderDate = t.month) ∧
    List.Sorted (· < ·) ((monthlySalesOverview records).map (fun p => p.1)) ∧
    (∀ k, k ∈ (monthlySalesOverview records).map (fun p => p.1) ↔
      natMinList (records.map (fun r => monthIndex r.orderDate)) ≤ k ∧
      k ≤ natMaxList (records.map (fun r => monthIndex r.orderDate))) := by
  have hkeys : ∀ a t, records = a :: t →
      (monthlySalesOverview records).map (fun p => p.1)
        = (List.range (natMaxList (records.map (fun r => monthIndex r.orderDate)) + 1
            - natMinList (records.map (fun r => monthIndex r.orderDate)))).map
          (fun i => natMinList (records.map (fun r => monthIndex r.orderDate)) + i) := by
    intro a t h
    subst h
    simp [monthlySalesOverview, List.map_map, Function.comp_def]
  rcases List.exists_cons_of_ne_nil hne with ⟨a, t, rfl⟩
  have hlohi : natMinList ((a :: t).map (fun r => monthIndex r.orderDate))
      ≤ natMaxList ((a :: t).map (fun r => monthIndex r.orderDate)) :=
    natMinList_le_natMaxList _ (by simp)
  refine ⟨?_, ?_, ?_, ?_⟩
  · rw [monthlyTrend_months]
    exact (List.sorted_insertionSort _ _).lt_of_le
      (((List.perm_insertionSort _ _).nodup_iff).mpr (List.nodup_dedup _))
  · intro tr htr
    rcases List.mem_map.mp htr with ⟨m, hm, rfl⟩
    have : m ∈ ((a :: t).map (fun r => monthIndex r.orderDate)).dedup := by
      simpa using hm
    rcases List.mem_map.mp (List.mem_dedup.mp this) with ⟨r, hr, hrm⟩
    exact ⟨r, hr, hrm⟩
  · rw [hkeys a t rfl]
    exact sorted_range_map_add _ _
  · intro k
    rw [hkeys a t rfl, mem_range_map_add]
    omega

/-- Witness for C3 (amended) at a concrete record set with a month gap. -/
theorem C3_monthly_order_witness :
    [recA, recC] ≠ ([] : List TransactionRecord) ∧
    (∀ k, k ∈ (monthlySalesOverview [recA, recC]).map (fun p => p.1) ↔
      natMinList ([recA, recC].map (fun r => monthIndex r.orderDate)) ≤ k ∧
      k ≤ natMaxList ([recA, recC].map (fun r => monthIndex r.orderDate))) :=
  ⟨by simp, (C3_monthly_order [recA, recC] (by simp)).2.2.2⟩

/-- C4 counterexample: in `[recA, recB]` the first-seen category order is
`["Technology", "Furniture"]`, but the category summary rows come out in
ascending key order `["Furniture", "Technology"]` — pandas `groupby` sorts
group keys by default, so the claimed insertion/first-seen order is false. -/
theorem C4_counterexample :
    (catSummary [recA, recB]).map (fun g => g.key) = ["Furniture", "Technology"] ∧
    (catSummary [recA, recB]).map (fun g => g.key) ≠ ["Technology", "Furniture"] := by
  constructor
  · decide
  · decide

/-- C4 amended: group summary rows appear in ascending order of the group key
(lexicographic for the category+sub-category pair), regardless of first-seen
order; when the caller sorts by a metric (the sub-category table sorted by
Sales), rows are ordered by that metric descending, as a permutation of the
unsorted summary. -/
theorem C4_group_order (records : List TransactionRecord) :
    List.Sorted strLe ((catSummary records).map (fun g => g.key)) ∧
    List.Sorted strLe ((regionSummary records).map (fun g => g.key)) ∧
    List.Sorted strLe ((segmentSummary records).map (fun g => g.key)) ∧
    List.Sorted pairLe ((subcatSummary records).map (fun g => g.key)) ∧
    (∀ rows : List (GroupRow (String × String)),
      List.Sorted salesDesc (sortBySalesDesc rows) ∧
        List.Perm (sortBySalesDesc rows) rows) := by
  refine ⟨?_, ?_, ?_, ?_, ?_⟩
  · rw [catSummary, groupSummary_keys]
    exact List.sorted_insertionSort _ _
  · rw [regionSummary, groupSummary_keys]
    exact List.sorted_insertionSort _ _
  · rw [segmentSummary, groupSummary_keys]
    exact List.sorted_insertionSort _ _
  · rw [subcatSummary, groupSummary_keys]
    exact List.sorted_insertionSort _ _
  · intro rows
    exact ⟨List.sorted_insertionSort _ _, List.perm_insertionSort _ _⟩

/-- C5 counterexample: a row with lower bound above the point forecast is
loaded with no warning-level diagnostic emitted — the claimed validation does
not happen. -/
theorem C5_counterexample :
    ¬ badForecastRow.yhatLower ≤ badForecastRow.yhat ∧
    (loadForecast [badForecastRow]).2 = [] := by
  constructor
  · norm_num [badForecastRow]
  · rfl

/-- C5 amended: the forecast load performs no validation at all: even when a
row violates lower ≤ point ≤ upper (or dates are non-monotonic), the full
loaded sequence is returned unchanged and no diagnostic is emitted; loading
is never blocked. -/
theorem C5_load_forecast (rows : List ForecastPoint)
    (h : ∃ r ∈ rows, ¬ (r.yhatLower ≤ r.yhat ∧ r.yhat ≤ r.yhatUpper)) :
    (loadForecast rows).1 = rows ∧ (loadForecast rows).2 = [] :=
  ⟨rfl, rfl⟩

/-- Witness for C5 at the concrete invalid row. -/
theorem C5_load_forecast_witness :
    (∃ r ∈ [badForecastRow], ¬ (r.yhatLower ≤ r.yhat ∧ r.yhat ≤ r.yhatUpper)) ∧
    (loadForecast [badForecastRow]).1 = [badForecastRow] ∧
    (loadForecast [badForecastRow]).2 = [] :=
  ⟨⟨badForecastRow, by simp, fun hc => by
      have := hc.1
      norm_num [badForecastRow] at this⟩,
   C5_load_forecast [badForecastRow] ⟨badForecastRow, by simp, fun hc => by
      have := hc.1
      norm_num [badForecastRow] at this⟩⟩

/-- C6 counterexample: the Trends-page column assignments change the column
set of the loaded snapshot, so the cached dataset does not keep exactly the
same columns across that operation. -/
theorem C6_counterexample :
    frameColumns (assignTrendColumns (loadFrame [recA])) ≠ frameColumns (loadFrame [recA]) := by
  decide

/-- C6 amended: every aggregation leaves the rows of the loaded snapshot
unchanged — KPI, trend, filter and group-summary computations are pure
functions of the record list — but the Trends page adds the two derived
columns Order Month and Year to the frame in place, so after that operation
the snapshot has two more columns than a freshly loaded frame. -/
theorem C6_frame_effect (f : Frame) :
    (assignTrendColumns f).rows = f.rows ∧
    (f.orderMonthCol = none → f.yearCol = none →
      frameColumns (assignTrendColumns f) = frameColumns f ++ ["Order Month", "Year"]) := by
  refine ⟨rfl, ?_⟩
  intro h1 h2
  simp [assignTrendColumns, frameColumns, h1, h2]

/-- Witness for C6 (amended) at a freshly loaded one-row frame. -/
theorem C6_frame_effect_witness :
    (assignTrendColumns (loadFrame [recA])).rows = [recA] ∧
    frameColumns (assignTrendColumns (loadFrame [recA]))
      = frameColumns (loadFrame [recA]) ++ ["Order Month", "Year"] :=
  ⟨(C6_frame_effect (loadFrame [recA])).1,
   (C6_frame_effect (loadFrame [recA])).2 rfl rfl⟩

/-- C7: filtering by a year returns exactly the records whose order-date year
equals the year, as a subsequence of the input (original relative order), and
returns the empty list rather than raising when no record matches. -/
theorem C7_filter_by_year (records : List TransactionRecord) (y : Nat) :
    (filterByYear records y).Sublist records ∧
    (∀ r ∈ filterByYear records y, r.orderDate.year = y) ∧
    (∀ r ∈ records, r.orderDate.year = y → r ∈ filterByYear records y) ∧
    ((∀ r ∈ records, r.orderDate.year ≠ y) → filterByYear records y = []) := by
  refine ⟨List.filter_sublist _, ?_, ?_, ?_⟩
  · intro r hr
    simpa using (List.mem_filter.mp hr).2
  · intro r hr hy
    exact List.mem_filter.mpr ⟨hr, by simpa using hy⟩
  · intro h
    exact List.filter_eq_nil_iff.mpr (fun r hr => by simpa using h r hr)

/-- Witness for C7: the 2024 filter keeps a 2024 record, and filtering to a
year absent from the data yields the empty list. -/
theorem C7_filter_by_year_witness :
    recC ∈ filterByYear [recA, recC] 2024 ∧ filterByYear [recA, recC] 2025 = [] :=
  ⟨(C7_filter_by_year [recA, recC] 2024).2.2.1 recC (by simp) rfl,
   (C7_filter_by_year [recA, recC] 2025).2.2.2 (by decide)⟩

/-- C8: each cluster summary row carries the 2-decimal-rounded arithmetic
means of the metrics over that cluster's rows and the label looked up in the
fixed mapping; every cluster id present in the input gets exactly one row,
and an id with no entry in the mapping gets a `none` label, not an error. -/
theorem C8_summarize (rows : List ClusterPoint) :
    (∀ s ∈ summarize rows,
      s.meanSales = round2 (listMean ((rows.filter
        (fun p => decide (p.cluster = s.cluster))).map (fun p => p.sales))) ∧
      s.meanProfit = round2 (listMean ((rows.filter
        (fun p => decide (p.cluster = s.cluster))).map (fun p => p.profit))) ∧
      s.meanDiscount = round2 (listMean ((rows.filter
        (fun p => decide (p.cluster = s.cluster))).map (fun p => p.discount))) ∧
      s.meanQuantity = round2 (listMean ((rows.filter
        (fun p => decide (p.cluster = s.cluster))).map (fun p => p.quantity))) ∧
      s.interpretation = mapLabel s.cluster ∧
      ((∀ p ∈ clusterLabels, p.1 ≠ s.cluster) → s.interpretation = none)) ∧
    (∀ c ∈ rows.map (fun p => p.cluster), ∃ s ∈ summarize rows, s.cluster = c) ∧
    ((summarize rows).map (fun s => s.cluster)).Nodup := by
  refine ⟨?_, ?_, ?_⟩
  · intro s hs
    rcases List.mem_map.mp hs with ⟨c, _, rfl⟩
    refine ⟨rfl, rfl, rfl, rfl, rfl, ?_⟩
    intro hnone
    simp only [mapLabel]
    have : clusterLabels.find? (fun p => decide (p.1 = c)) = none := by
      apply List.find?_eq_none.mpr
      intro p hp
      simpa using hnone p hp
    simp [this]
  · intro c hc
    have hmem : c ∈ (summarize rows).map (fun s => s.cluster) := by
      rw [summarize_cluster_col]
      simp only [List.mem_insertionSort, List.mem_dedup]
      exact hc
    rcases List.mem_map.mp hmem with ⟨s, hs, hsc⟩
    exact ⟨s, hs, hsc⟩
  · rw [summarize_cluster_col]
    exact ((List.perm_insertionSort _ _).nodup_iff).mpr (List.nodup_dedup _)

/-- Witness for C8: the row for unmapped id 4 exists and its label is `none`. -/
theorem C8_summarize_witness :
    clusterRow4 ∈ summarize demoClusters ∧ clusterRow4.interpretation = none :=
  ⟨by
    norm_num [summarize, demoClusters, clusterRow4, round2, listMean, mapLabel, clusterLabels,
      List.insertionSort, List.orderedInsert, List.dedup_cons_of_not_mem, List.filter],
   ((C8_summarize demoClusters).1 clusterRow4 (by
    norm_num [summarize, demoClusters, clusterRow4, round2, listMean, mapLabel, clusterLabels,
      List.insertionSort, List.orderedInsert, List.dedup_cons_of_not_mem, List.filter])).2.2.2.2.2
    (by decide)⟩

/-- C9: `tail` returns the last `n` rows in the original order (a suffix of
length `min n len`), and when `n` exceeds the number of rows it returns all
rows rather than erroring. -/
theorem C9_tail {α : Type} (l : List α) (n : Nat) :
    List.IsSuffix (tail l n) l ∧
    (tail l n).length = min n l.length ∧
    (l.length ≤ n → tail l n = l) := by
  refine ⟨List.drop_suffix _ _, ?_, ?_⟩
  · simp only [tail, List.length_drop]
    omega
  · intro h
    simp [tail, Nat.sub_eq_zero_of_le h]

/-- Witness for C9: asking for 5 rows of a 1-row forecast returns the row. -/
theorem C9_tail_witness :
    tail [badForecastRow] 5 = [badForecastRow] :=
  (C9_tail [badForecastRow] 5).2.2 (by decide)

/-- C10: the cluster summary has exactly one row per distinct cluster id
present in the input, ordered by cluster id strictly ascending regardless of
input order. -/
theorem C10_cluster_rows (rows : List ClusterPoint) :
    List.Sorted (· < ·) ((summarize rows).map (fun s => s.cluster)) ∧
    (∀ c, c ∈ (summarize rows).map (fun s => s.cluster) ↔
      c ∈ rows.map (fun p => p.cluster)) ∧
    (summarize rows).length = (rows.map (fun p => p.cluster)).dedup.length := by
  refine ⟨?_, ?_, ?_⟩
  · rw [summarize_cluster_col]
    exact (List.sorted_insertionSort _ _).lt_of_le
      (((List.perm_insertionSort _ _).nodup_iff).mpr (List.nodup_dedup _))
  · intro c
    rw [summarize_cluster_col]
    simp [List.mem_insertionSort, List.mem_dedup]
  · have := congrArg List.length (summarize_cluster_col rows)
    simpa using this
